import Mathlib

/-!
Shallow embedding of the sienna-locomotive tracer core
(src/tracer/tracer.cpp) and verification of the specification claims
about its taint engine, input interceptor and exception-triage engine.

Machine addresses (`app_pc`) are modelled as `Nat`, the shadow sets
`tainted_regs` / `tainted_mems` (C++ `std::set`) as `Finset`.
-/

namespace Tracer

/-- DynamoRIO register identifiers used by the tracer: the general purpose
registers with all sub-register aliases appearing in `reg_to_full_width64`,
plus `NULLREG` (`DR_REG_NULL`), which the tracer uses as the sentinel for
taint on the program counter. -/
inductive Reg
  | RAX | EAX | AX | AH | AL
  | RBX | EBX | BX | BH | BL
  | RCX | ECX | CX | CH | CL
  | RDX | EDX | DX | DH | DL
  | R8  | R8D  | R8W  | R8L
  | R9  | R9D  | R9W  | R9L
  | R10 | R10D | R10W | R10L
  | R11 | R11D | R11W | R11L
  | R12 | R12D | R12W | R12L
  | R13 | R13D | R13W | R13L
  | R14 | R14D | R14W | R14L
  | R15 | R15D | R15W | R15L
  | RSP | ESP | SP
  | RBP | EBP | BP
  | RSI | ESI | SI
  | RDI | EDI | DI
  | NULLREG
  deriving DecidableEq, Repr

/-- Source `reg_to_full_width64`: converts a register to full width for taint
tracking; unknown identifiers (including `DR_REG_NULL`) pass through. -/
def reg_to_full_width64 : Reg → Reg
  | .EAX | .AX | .AH | .AL => .RAX
  | .EBX | .BX | .BH | .BL => .RBX
  | .ECX | .CX | .CH | .CL => .RCX
  | .EDX | .DX | .DH | .DL => .RDX
  | .R8D  | .R8W  | .R8L  => .R8
  | .R9D  | .R9W  | .R9L  => .R9
  | .R10D | .R10W | .R10L => .R10
  | .R11D | .R11W | .R11L => .R11
  | .R12D | .R12W | .R12L => .R12
  | .R13D | .R13W | .R13L => .R13
  | .R14D | .R14W | .R14L => .R14
  | .R15D | .R15W | .R15L => .R15
  | .ESP | .SP => .RSP
  | .EBP | .BP => .RBP
  | .ESI | .SI => .RSI
  | .EDI | .DI => .RDI
  | r => r

/-- A decoded DynamoRIO operand, as far as the tracer inspects it.
A memory operand carries the effective address already computed from the
captured machine context (`opnd_compute_address`), its size in bytes, and
the base/disp/index identifiers of its base-disp form (the code reads the
displacement with `opnd_get_disp` but compares it as a register id, which
we reproduce). `NULLREG` plays the role of the C null check. -/
inductive Operand
  | reg (r : Reg)
  | mem (addr : Nat) (size : Nat) (hasBaseDisp : Bool) (base disp indexReg : Reg)
  | imm (v : Int)
  | relAddr (a : Nat)
  deriving DecidableEq, Repr

/-- Set of tainted (canonical) registers, `tainted_regs` in the source. -/
abbrev RegSet := Finset Reg

/-- Set of tainted byte addresses, `tainted_mems` in the source. -/
abbrev MemSet := Finset Nat

/-- Source `is_tainted`: check whether an operand is tainted.  A register operand
is tainted when its full-width form is in `tainted_regs`; a memory operand
when any byte of `[addr, addr+size)` is in `tainted_mems` or any of the
base/disp/index registers of its base-disp form is tainted. -/
def is_tainted (TR : RegSet) (TM : MemSet) : Operand → Bool
  | .reg r => decide (reg_to_full_width64 r ∈ TR)
  | .mem addr size hbd base disp indexReg =>
      if (List.range size).any (fun i => decide (addr + i ∈ TM)) then
        true
      else if hbd then
        (decide (base ≠ Reg.NULLREG) && decide (reg_to_full_width64 base ∈ TR)) ||
        (decide (disp ≠ Reg.NULLREG) && decide (reg_to_full_width64 disp ∈ TR)) ||
        (decide (indexReg ≠ Reg.NULLREG) && decide (reg_to_full_width64 indexReg ∈ TR))
      else
        false
  | _ => false

/-- Source `taint_mem`: mark `size` byte addresses starting at `addr` as tainted. -/
def taint_mem (TM : MemSet) (addr : Nat) (size : Nat) : MemSet :=
  (List.range size).foldl (fun s i => insert (addr + i) s) TM

/-- Source `untaint_mem`: erase `size` byte addresses starting at `addr`
(the C++ also returns whether any byte was present, which no caller in
the claims depends on). -/
def untaint_mem (TM : MemSet) (addr : Nat) (size : Nat) : MemSet :=
  (List.range size).foldl (fun s i => s.erase (addr + i)) TM

/-- Source `taint`: mark an operand (register or memory reference) as tainted. -/
def taint (TR : RegSet) (TM : MemSet) : Operand → RegSet × MemSet
  | .reg r => (insert (reg_to_full_width64 r) TR, TM)
  | .mem addr size _ _ _ _ => (TR, taint_mem TM addr size)
  | _ => (TR, TM)

/-- Source `untaint`: unmark an operand. -/
def untaint (TR : RegSet) (TM : MemSet) : Operand → RegSet × MemSet
  | .reg r => (TR.erase (reg_to_full_width64 r), TM)
  | .mem addr size _ _ _ _ => (TR, untaint_mem TM addr size)
  | _ => (TR, TM)

/-- The instruction opcodes the specialized dispatch distinguishes. -/
inductive Opcode
  | OP_push | OP_pop | OP_xor | OP_xchg
  | OP_other (n : Nat)
  deriving DecidableEq, Repr

/-- A decoded instruction, as far as the tracer inspects it: the DynamoRIO
classification predicates, memory-access predicates, the source and
destination operand lists, the branch target operand (`instr_get_target`)
and the disassembly text. -/
structure Instr where
  opcode : Opcode
  is_ret : Bool
  is_ubr : Bool
  is_cbr : Bool
  is_call_direct : Bool
  is_mbr : Bool
  is_call : Bool
  writes_memory : Bool
  reads_memory : Bool
  srcs : List Operand
  dsts : List Operand
  target : Operand
  disassembly : String
  deriving Repr

/-- Source `handle_xor`: special case of `xor regA, regA` — untaint the destination
register since the result is inevitably 0.  Returns whether the case applied
together with the new register set. -/
def handle_xor (TR : RegSet) (instr : Instr) : Bool × RegSet :=
  match instr.srcs with
  | [o0, o1] =>
      match o0, o1 with
      | .reg r0, .reg r1 =>
          let reg_0 := reg_to_full_width64 r0
          let reg_1 := reg_to_full_width64 r1
          if reg_0 = reg_1 then (true, TR.erase reg_0) else (false, TR)
      | _, _ => (false, TR)
  | _ => (false, TR)

/-- Source `handle_push_pop`: propagate generically but never taint or untaint RSP
even when it appears among the destinations. -/
def handle_push_pop (TR : RegSet) (TM : MemSet) (instr : Instr) : RegSet × MemSet :=
  let tainted := instr.srcs.any (is_tainted TR TM)
  if tainted then
    instr.dsts.foldl
      (fun acc o =>
        match o with
        | .reg r =>
            if reg_to_full_width64 r = Reg.RSP then acc else taint acc.1 acc.2 o
        | _ => taint acc.1 acc.2 o)
      (TR, TM)
  else
    instr.dsts.foldl
      (fun acc o =>
        match o with
        | .reg r =>
            if reg_to_full_width64 r = Reg.RSP then acc else untaint acc.1 acc.2 o
        | _ => untaint acc.1 acc.2 o)
      (TR, TM)

/-- Source `handle_xchg`: an xchg of a tainted and a non-tainted register swaps
the taint.  Returns whether the case applied. -/
def handle_xchg (TR : RegSet) (instr : Instr) : Bool × RegSet :=
  match instr.srcs with
  | [o0, o1] =>
      match o0, o1 with
      | .reg r0, .reg r1 =>
          let reg_0 := reg_to_full_width64 r0
          let reg_1 := reg_to_full_width64 r1
          let reg_0_tainted := decide (reg_0 ∈ TR)
          let reg_1_tainted := decide (reg_1 ∈ TR)
          if reg_0_tainted && !reg_1_tainted then
            (true, insert reg_1 (TR.erase reg_0))
          else if reg_1_tainted && !reg_0_tainted then
            (true, insert reg_0 (TR.erase reg_1))
          else (false, TR)
      | _, _ => (false, TR)
  | _ => (false, TR)

/-- Source `handle_branches`: special cases for tainting and untainting PC on the
branch family (ret, direct/indirect branch, call).  Returns `none` when the
instruction is not in the branch family. -/
def handle_branches (TR : RegSet) (TM : MemSet) (instr : Instr) :
    Option (RegSet × MemSet) :=
  let is_ret := instr.is_ret
  let is_direct := instr.is_ubr || instr.is_cbr || instr.is_call_direct
  let is_indirect := instr.is_mbr
  let is_call := instr.is_call
  if !is_ret && !is_direct && !is_indirect && !is_call then
    none
  else
    let reg_pc := reg_to_full_width64 Reg.NULLREG
    let reg_stack := reg_to_full_width64 Reg.ESP
    let pc_tainted := decide (reg_pc ∈ TR)
    -- call: make the saved return address (first memory destination) tainted
    let s1 : RegSet × MemSet :=
      if is_call && pc_tainted then
        match instr.dsts.find? (fun o => match o with | .mem .. => true | _ => false) with
        | some o => taint TR TM o
        | none => (TR, TM)
      else (TR, TM)
    -- direct branch or call: untaint pc
    let s2 : RegSet × MemSet :=
      if is_direct && pc_tainted then (s1.1.erase reg_pc, s1.2) else s1
    -- indirect branch or call: taint pc from tainted non-stack source registers
    let s3 : RegSet × MemSet :=
      if is_indirect then
        (instr.srcs.foldl
          (fun acc o =>
            match o with
            | .reg r =>
                let reg := reg_to_full_width64 r
                if reg ≠ reg_stack ∧ reg ∈ acc then insert reg_pc acc else acc
            | _ => acc)
          s2.1, s2.2)
      else s2
    -- ret: taint pc when any source is tainted, else untaint pc
    let s4 : RegSet × MemSet :=
      if is_ret then
        if instr.srcs.any (is_tainted s3.1 s3.2) then
          (insert reg_pc s3.1, s3.2)
        else
          (s3.1.erase reg_pc, s3.2)
      else s3
    some s4

/-- Source `handle_specific`: dispatch to instruction-specific taint handling for
instructions that do not fit the generic tainted-operand-taints-result
model.  Returns `none` when the generic rule should run instead. -/
def handle_specific (TR : RegSet) (TM : MemSet) (instr : Instr) :
    Option (RegSet × MemSet) :=
  match handle_branches TR TM instr with
  | some s => some s
  | none =>
      match instr.opcode with
      | .OP_push | .OP_pop => some (handle_push_pop TR TM instr)
      | .OP_xor =>
          match handle_xor TR instr with
          | (true, TR1) => some (TR1, TM)
          | (false, _) => none
      | .OP_xchg =>
          match handle_xchg TR instr with
          | (true, TR1) => some (TR1, TM)
          | (false, _) => none
      | _ => none

/-- Constant `LAST_COUNT`: the length of the two trace rings. -/
def LAST_COUNT : Nat := 5

/-- The mutable state read and written by `propagate_taint`: the two shadow
sets and the two trace rings with their write indices. -/
structure PropState where
  tainted_regs : RegSet
  tainted_mems : MemSet
  last_insns : List Nat
  last_insn_idx : Nat
  last_calls : List Nat
  last_call_idx : Nat

/-- Source `propagate_taint`, called on each instruction (with `instr` standing for
the result of decoding the instruction at `pc`): records the trace rings,
early-exits when no taint exists, dispatches the specific handlers and
otherwise spreads taint from sources to destinations (or wipes tainted
destinations when no source is tainted). -/
def propagate_taint (module_start module_end : Nat) (pc : Nat) (instr : Instr)
    (st : PropState) : PropState :=
  -- Store instruction trace
  let st1 :=
    if module_start < pc ∧ pc < module_end then
      { st with last_insns := st.last_insns.set st.last_insn_idx pc,
                last_insn_idx := (st.last_insn_idx + 1) % LAST_COUNT }
    else st
  if st1.tainted_mems = ∅ ∧ st1.tainted_regs = ∅ then st1
  else
    -- Save the call target (if this is a call through memory)
    let st2 :=
      if instr.is_call then
        match instr.target with
        | .mem addr _ _ _ _ _ =>
            if module_start < pc ∧ pc < module_end then
              { st1 with last_calls := st1.last_calls.set st1.last_call_idx addr,
                         last_call_idx := (st1.last_call_idx + 1) % LAST_COUNT }
            else st1
        | _ => st1
      else st1
    match handle_specific st2.tainted_regs st2.tainted_mems instr with
    | some (TR1, TM1) => { st2 with tainted_regs := TR1, tainted_mems := TM1 }
    | none =>
        let tainted := instr.srcs.any (is_tainted st2.tainted_regs st2.tainted_mems)
        if tainted then
          let s := instr.dsts.foldl (fun acc o => taint acc.1 acc.2 o)
            (st2.tainted_regs, st2.tainted_mems)
          { st2 with tainted_regs := s.1, tainted_mems := s.2 }
        else
          let s := instr.dsts.foldl (fun acc o => untaint acc.1 acc.2 o)
            (st2.tainted_regs, st2.tainted_mems)
          { st2 with tainted_regs := s.1, tainted_mems := s.2 }

/-- The exception codes the triage ladder distinguishes. -/
inductive ExcCode
  | illegalInstruction
  | intDivideByZero
  | breakpoint
  | accessViolation
  | other (n : Nat)
  deriving DecidableEq, Repr

/-- The argument tuple `on_exception` passes to `dump_crash`, which
`dump_json` copies verbatim into the emitted JSON record. -/
structure CrashReportArgs where
  reason : String
  score : Nat
  disassembly : String
  pc_tainted : Bool
  stack_tainted : Bool
  is_ret : Bool
  is_indirect : Bool
  is_direct : Bool
  is_call : Bool
  mem_write : Bool
  mem_read : Bool
  tainted_src : Bool
  tainted_dst : Bool
  deriving DecidableEq, Repr

/-- Source `on_exception`: the scoring ladder.  `bad_read_ptr` stands for
`IsBadReadPtr(exception_address, 1)` and `instr` for the result of decoding
the faulting instruction.  Each `dump_crash` call exits the process, so the
ladder is an early-return chain; we return the argument tuple of the
`dump_crash` call that fires. -/
def on_exception (TR : RegSet) (TM : MemSet) (exception_code : ExcCode)
    (bad_read_ptr : Bool) (instr : Instr) : CrashReportArgs :=
  let pc_tainted := decide (reg_to_full_width64 Reg.NULLREG ∈ TR)
  let stack_tainted := decide (reg_to_full_width64 Reg.ESP ∈ TR)
  -- catch-all result; the faulting instruction is not yet decoded here
  if bad_read_ptr then
    if pc_tainted then
      ⟨"oob execution tainted pc", 100, "", pc_tainted, stack_tainted,
       false, false, false, false, false, false, false, false⟩
    else
      ⟨"oob execution", 50, "", pc_tainted, stack_tainted,
       false, false, false, false, false, false, false, false⟩
  else
    let disassembly := instr.disassembly
    let is_ret := instr.is_ret
    let is_direct := instr.is_ubr || instr.is_cbr || instr.is_call_direct
    let is_indirect := instr.is_mbr
    let is_call := instr.is_call
    let mem_write := instr.writes_memory
    let mem_read := instr.reads_memory
    if exception_code = ExcCode.illegalInstruction then
      if pc_tainted then
        ⟨"illegal instruction tainted pc", 100, disassembly, pc_tainted, stack_tainted,
         false, false, false, false, false, false, false, false⟩
      else
        ⟨"illegal instruction", 50, disassembly, pc_tainted, stack_tainted,
         false, false, false, false, false, false, false, false⟩
    else if exception_code = ExcCode.intDivideByZero then
      ⟨"divide by zero", 50, disassembly, pc_tainted, stack_tainted,
       is_ret, is_indirect, is_direct, is_call, mem_write, mem_read, false, false⟩
    else if exception_code = ExcCode.breakpoint then
      ⟨"breakpoint", 25, disassembly, pc_tainted, stack_tainted,
       is_ret, is_indirect, is_direct, is_call, mem_write, mem_read, false, false⟩
    else if is_direct || is_indirect || is_call then
      if pc_tainted then
        ⟨"branching tainted pc", 75, disassembly, pc_tainted, stack_tainted,
         is_ret, is_indirect, is_direct, is_call, mem_write, mem_read, false, false⟩
      else
        ⟨"branching", 25, disassembly, pc_tainted, stack_tainted,
         is_ret, is_indirect, is_direct, is_call, mem_write, mem_read, false, false⟩
    else if is_ret then
      if pc_tainted || stack_tainted then
        ⟨"return with taint", 100, disassembly, pc_tainted, stack_tainted,
         is_ret, is_indirect, is_direct, is_call, mem_write, mem_read, false, false⟩
      else
        ⟨"return", 75, disassembly, pc_tainted, stack_tainted,
         is_ret, is_indirect, is_direct, is_call, mem_write, mem_read, false, false⟩
    else
      -- only now are the operands surveyed
      let tainted_src := instr.srcs.any (is_tainted TR TM)
      let tainted_dst := instr.dsts.any (is_tainted TR TM)
      if mem_write then
        if tainted_src || tainted_dst then
          ⟨"tainted write", 75, disassembly, pc_tainted, stack_tainted,
           is_ret, is_indirect, is_direct, is_call, mem_write, mem_read,
           tainted_src, tainted_dst⟩
        else
          ⟨"write", 50, disassembly, pc_tainted, stack_tainted,
           is_ret, is_indirect, is_direct, is_call, mem_write, mem_read,
           tainted_src, tainted_dst⟩
      else if mem_read then
        if tainted_src then
          ⟨"tainted read", 75, disassembly, pc_tainted, stack_tainted,
           is_ret, is_indirect, is_direct, is_call, mem_write, mem_read,
           tainted_src, tainted_dst⟩
        else
          ⟨"read", 25, disassembly, pc_tainted, stack_tainted,
           is_ret, is_indirect, is_direct, is_call, mem_write, mem_read,
           tainted_src, tainted_dst⟩
      else
        ⟨"unknown", 50, disassembly, pc_tainted, stack_tainted,
         is_ret, is_indirect, is_direct, is_call, mem_write, mem_read,
         tainted_src, tainted_dst⟩

/-- Modelled from the spec: the ordered scoring matrix of section 4.7, with
first-matching-row semantics, as a function of the step-3 flags.  Used only
to compare the implementation ladder against the specified table. -/
def spec_scoring_matrix (oob pc_tainted illegal divzero bp is_direct is_indirect
    is_call is_ret stack_tainted mem_write mem_read tainted_src tainted_dst : Bool) :
    String × Nat :=
  if oob && pc_tainted then ("oob execution tainted pc", 100)
  else if oob then ("oob execution", 50)
  else if illegal && pc_tainted then ("illegal instruction tainted pc", 100)
  else if illegal then ("illegal instruction", 50)
  else if divzero then ("divide by zero", 50)
  else if bp then ("breakpoint", 25)
  else if (is_direct || is_indirect || is_call) && pc_tainted then ("branching tainted pc", 75)
  else if is_direct || is_indirect || is_call then ("branching", 25)
  else if is_ret && (pc_tainted || stack_tainted) then ("return with taint", 100)
  else if is_ret then ("return", 75)
  else if mem_write && (tainted_src || tainted_dst) then ("tainted write", 75)
  else if mem_write then ("write", 50)
  else if mem_read && tainted_src then ("tainted read", 75)
  else if mem_read then ("read", 25)
  else ("unknown", 50)

/-- The run-length coalescing loop of `dump_json` over the (sorted) tainted
address set, from the current run `[start, start+size)`: emit the run and
start a new one when the next address is beyond contiguous, else extend. -/
def coalesceGo : List Nat → Nat → Nat → List (Nat × Nat)
  | [], start, size => [(start, size)]
  | curr :: rest, start, size =>
      if start + size < curr then (start, size) :: coalesceGo rest curr 1
      else coalesceGo rest start (size + 1)

/-- The `tainted_addrs` computation of `dump_json`: coalesce an ascending
list of addresses into `(start, size)` extents. -/
def coalesce : List Nat → List (Nat × Nat)
  | [] => []
  | a :: rest => coalesceGo rest a 1

/-- Source `get_register_name` for the sixteen general-purpose registers dumped by
`dump_json` (provided by DynamoRIO; only these sixteen are queried). -/
def get_register_name : Reg → String
  | .RAX => "rax" | .RBX => "rbx" | .RCX => "rcx" | .RDX => "rdx"
  | .RSP => "rsp" | .RBP => "rbp" | .RSI => "rsi" | .RDI => "rdi"
  | .R8 => "r8"   | .R9 => "r9"   | .R10 => "r10" | .R11 => "r11"
  | .R12 => "r12" | .R13 => "r13" | .R14 => "r14" | .R15 => "r15"
  | _ => ""

/-- The sixteen registers enumerated by `dump_json`. -/
def dump_reg_list : List Reg :=
  [.RAX, .RBX, .RCX, .RDX, .RSP, .RBP, .RSI, .RDI,
   .R8, .R9, .R10, .R11, .R12, .R13, .R14, .R15]

/-- The JSON crash record assembled by `dump_json`.  The `exception` field
is kept as the exception code (`exception_to_string` is an external
collaborator). -/
structure JsonReport where
  score : Nat
  reason : String
  exception : ExcCode
  location : Nat
  instruction : String
  pc_tainted : Bool
  stack_tainted : Bool
  is_ret : Bool
  is_indirect : Bool
  is_direct : Bool
  is_call : Bool
  mem_write : Bool
  mem_read : Bool
  tainted_src : Bool
  tainted_dst : Bool
  regs : List (String × Nat × Bool)
  last_calls : List Nat
  last_insns : List Nat
  tainted_addrs : List (Nat × Nat)

/-- Source `dump_json`: build the crash record from the `dump_crash` arguments, the
shadow state, the exception data, the machine context `ctx` and the trace
rings (each ring read oldest-first starting at its write index). -/
def dump_json (TR : RegSet) (TM : MemSet) (exception_code : ExcCode)
    (exception_address : Nat) (ctx : Reg → Nat) (args : CrashReportArgs)
    (last_calls : List Nat) (last_call_idx : Nat)
    (last_insns : List Nat) (last_insn_idx : Nat) : JsonReport :=
  { score := args.score
    reason := args.reason
    exception := exception_code
    location := exception_address
    instruction := args.disassembly
    pc_tainted := args.pc_tainted
    stack_tainted := args.stack_tainted
    is_ret := args.is_ret
    is_indirect := args.is_indirect
    is_direct := args.is_direct
    is_call := args.is_call
    mem_write := args.mem_write
    mem_read := args.mem_read
    tainted_src := args.tainted_src
    tainted_dst := args.tainted_dst
    regs :=
      dump_reg_list.map
        (fun r => (get_register_name r, ctx r, decide (r ∈ TR)))
      ++ [("rip", exception_address, decide (Reg.NULLREG ∈ TR))]
    last_calls :=
      (List.range LAST_COUNT).map
        (fun i => last_calls.getD ((last_call_idx + i) % LAST_COUNT) 0)
    last_insns :=
      (List.range LAST_COUNT).map
        (fun i => last_insns.getD ((last_insn_idx + i) % LAST_COUNT) 0)
    tainted_addrs := coalesce (TM.sort (· ≤ ·)) }

/-- The outcomes of the I/O operations `dump_crash` performs, as an
environment oracle: whether the crash-file open and write succeed and
whether the minidump-file open succeeds. -/
structure TriageIOEnv where
  crash_file_opens : Bool
  crash_file_writes : Bool
  dump_file_opens : Bool
  deriving DecidableEq, Repr

/-- The externally visible effects of one `dump_crash` invocation. -/
structure DumpCrashResult where
  json_records_written : Nat
  minidumps_written : Nat
  aborted : Bool
  exit_code : Option Nat
  returns_to_guest : Bool
  deriving DecidableEq, Repr

/-- Source `dump_crash` effects: the JSON record and minidump are produced inside
`if (replay)`; a failed crash-file open or write calls `dr_abort`; a failed
minidump-file open only logs a diagnostic, after which `MiniDumpWriteDump`
runs with the invalid handle (writing nothing); the function always ends in
`dr_exit_process(1)` and never returns to the guest. -/
def dump_crash (replay : Bool) (env : TriageIOEnv) : DumpCrashResult :=
  if replay then
    if !env.crash_file_opens then
      ⟨0, 0, true, none, false⟩
    else if !env.crash_file_writes then
      ⟨0, 0, true, none, false⟩
    else if !env.dump_file_opens then
      ⟨1, 0, false, some 1, false⟩
    else
      ⟨1, 1, false, some 1, false⟩
  else
    ⟨0, 0, false, some 1, false⟩

/-- The externally visible effects of one `wrap_post_Generic` invocation. -/
structure GenericPostResult where
  tainted_mems : MemSet
  mutate_count : Nat
  rpc_requests : List (Nat × Nat × Nat)
  mutex_taken : Bool
  mutex_released : Bool
  record_freed : Bool
  call_count_incremented : Bool

/-- Source `wrap_post_Generic`: the generic post-hook.  `sane` is the result of
`is_sane_post_hook`, `targeted` the answer of the external target-selection
policy for this record's argument hash.  An RPC request is recorded as
`(index, length, buffer)` for `sl2_conn_request_replay`.  Every exit path
(including the `goto cleanup` one) frees the client-read record. -/
def wrap_post_Generic (sane targeted replay no_mutate : Bool)
    (lpBuffer nNumberOfBytesToRead : Nat) (TM : MemSet) (mutate_count : Nat) :
    GenericPostResult :=
  if !sane then
    ⟨TM, mutate_count, [], false, false, true, false⟩
  else
    let TM1 := if targeted then taint_mem TM lpBuffer nNumberOfBytesToRead else TM
    if replay && targeted then
      ⟨TM1, mutate_count + 1,
       if no_mutate then [] else [(mutate_count, nNumberOfBytesToRead, lpBuffer)],
       true, true, true, true⟩
    else
      ⟨TM1, mutate_count, [], false, false, true, true⟩

/-! ## Claims about `dump_crash` (C2, C4) -/

/-- C2, counterexample: in a run that is not in replay mode, `dump_crash`
writes no JSON record and no minidump (it only exits with code 1), so the
claim that exactly one JSON record and one minidump are produced "for every
run, not only runs started in replay mode" is false on the code. -/
theorem C2_counterexample :
    (dump_crash false ⟨true, true, true⟩).json_records_written = 0 ∧
    (dump_crash false ⟨true, true, true⟩).minidumps_written = 0 ∧
    (dump_crash false ⟨true, true, true⟩).exit_code = some 1 := by
  decide

/-- C2, amended: `dump_crash` never returns control to the guest; in replay
mode with all triage I/O succeeding it produces exactly one JSON record and
one minidump and exits with code 1; outside replay mode it writes neither
artifact and still exits with code 1. -/
theorem C2_dump_crash_effects :
    (∀ r a b c : Bool, (dump_crash r ⟨a, b, c⟩).returns_to_guest = false) ∧
    (dump_crash true ⟨true, true, true⟩).json_records_written = 1 ∧
    (dump_crash true ⟨true, true, true⟩).minidumps_written = 1 ∧
    (dump_crash true ⟨true, true, true⟩).exit_code = some 1 ∧
    (∀ a b c : Bool,
      (dump_crash false ⟨a, b, c⟩).json_records_written = 0 ∧
      (dump_crash false ⟨a, b, c⟩).minidumps_written = 0 ∧
      (dump_crash false ⟨a, b, c⟩).exit_code = some 1) := by
  decide

/-- C4, counterexample: when the minidump file cannot be opened (but the
crash file I/O succeeded), the tracer does not abort — it logs, attempts
the dump against the invalid handle, and exits normally with code 1 — so
the claim that a minidump open failure aborts the tracer is false. -/
theorem C4_counterexample :
    (dump_crash true ⟨true, true, false⟩).aborted = false ∧
    (dump_crash true ⟨true, true, false⟩).exit_code = some 1 := by
  decide

/-- C4, amended: a crash-file open failure or a crash-file write failure
aborts the tracer, but a minidump-file open failure does not abort: the
minidump is simply not written and the process exits with code 1. -/
theorem C4_triage_io_failures :
    (∀ b c : Bool, (dump_crash true ⟨false, b, c⟩).aborted = true) ∧
    (∀ c : Bool, (dump_crash true ⟨true, false, c⟩).aborted = true) ∧
    ((dump_crash true ⟨true, true, false⟩).aborted = false ∧
     (dump_crash true ⟨true, true, false⟩).minidumps_written = 0 ∧
     (dump_crash true ⟨true, true, false⟩).exit_code = some 1) := by
  decide

/-! ## Claims about `wrap_post_Generic` (C5, C6) -/

/-- C5, counterexample: on a sane, targeted call in replay mode with the
no-mutate option set, no server RPC is issued but `mutate_count` IS still
incremented and the replay mutex IS taken, contradicting the claim that
under no-mutate neither the RPC happens nor `mutate_count` is incremented
(and that the mutex is taken only when the user did not opt out). -/
theorem C5_counterexample :
    (wrap_post_Generic true true true true 4096 16 ∅ 0).rpc_requests = [] ∧
    (wrap_post_Generic true true true true 4096 16 ∅ 0).mutate_count = 1 ∧
    (wrap_post_Generic true true true true 4096 16 ∅ 0).mutex_taken = true := by
  refine ⟨rfl, rfl, rfl⟩

/-- C5, amended: on a sane post-hook invocation the replay mutex is taken
and released and `mutate_count` is incremented exactly when the run is in
replay mode and the call is targeted, regardless of no-mutate; the server
RPC for byte `mutate_count` into the buffer happens exactly when
additionally the user did not opt out of mutation. -/
theorem C5_replay_mutation (sane targeted replay no_mutate : Bool)
    (lpBuffer nNumberOfBytesToRead : Nat) (TM : MemSet) (mutate_count : Nat) :
    (wrap_post_Generic sane targeted replay no_mutate lpBuffer nNumberOfBytesToRead
        TM mutate_count).mutex_taken = (sane && (replay && targeted)) ∧
    (wrap_post_Generic sane targeted replay no_mutate lpBuffer nNumberOfBytesToRead
        TM mutate_count).mutex_released = (sane && (replay && targeted)) ∧
    (wrap_post_Generic sane targeted replay no_mutate lpBuffer nNumberOfBytesToRead
        TM mutate_count).mutate_count =
      (if sane && (replay && targeted) then mutate_count + 1 else mutate_count) ∧
    (wrap_post_Generic sane targeted replay no_mutate lpBuffer nNumberOfBytesToRead
        TM mutate_count).rpc_requests =
      (if sane && (replay && targeted) && !no_mutate then
        [(mutate_count, nNumberOfBytesToRead, lpBuffer)]
      else []) ∧
    (wrap_post_Generic sane targeted replay no_mutate lpBuffer nNumberOfBytesToRead
        TM mutate_count).record_freed = true := by
  cases sane <;> cases targeted <;> cases replay <;> cases no_mutate <;>
    simp [wrap_post_Generic]

/-- C6, confirmed: for a call that the target-selection policy does not
target, the post-hook leaves the tainted memory set unchanged, leaves
`mutate_count` unchanged, issues no server RPC, and frees the client-read
record before returning. -/
theorem C6_non_targeted_frame (sane replay no_mutate : Bool)
    (lpBuffer nNumberOfBytesToRead : Nat) (TM : MemSet) (mutate_count : Nat) :
    (wrap_post_Generic sane false replay no_mutate lpBuffer nNumberOfBytesToRead
        TM mutate_count).tainted_mems = TM ∧
    (wrap_post_Generic sane false replay no_mutate lpBuffer nNumberOfBytesToRead
        TM mutate_count).mutate_count = mutate_count ∧
    (wrap_post_Generic sane false replay no_mutate lpBuffer nNumberOfBytesToRead
        TM mutate_count).rpc_requests = [] ∧
    (wrap_post_Generic sane false replay no_mutate lpBuffer nNumberOfBytesToRead
        TM mutate_count).record_freed = true := by
  cases sane <;> cases replay <;> simp [wrap_post_Generic]

/-! ## Concrete fixtures used by witnesses and counterexamples -/

/-- An instruction with no flags set and no operands. -/
def nop_instr : Instr :=
  { opcode := .OP_other 0, is_ret := false, is_ubr := false, is_cbr := false,
    is_call_direct := false, is_mbr := false, is_call := false,
    writes_memory := false, reads_memory := false,
    srcs := [], dsts := [], target := .imm 0, disassembly := "nop" }

/-- A call instruction whose target is a memory operand resolving to
address 500. -/
def call_mem_instr : Instr :=
  { opcode := .OP_other 1, is_ret := false, is_ubr := false, is_cbr := false,
    is_call_direct := false, is_mbr := false, is_call := true,
    writes_memory := false, reads_memory := false,
    srcs := [], dsts := [],
    target := .mem 500 8 false .NULLREG .NULLREG .NULLREG,
    disassembly := "call" }

/-- A return instruction with no operands. -/
def ret_instr : Instr :=
  { opcode := .OP_other 2, is_ret := true, is_ubr := false, is_cbr := false,
    is_call_direct := false, is_mbr := false, is_call := false,
    writes_memory := false, reads_memory := false,
    srcs := [], dsts := [], target := .imm 0, disassembly := "ret" }

/-- The instruction `xor rbx, rbx`. -/
def xor_rbx_instr : Instr :=
  { opcode := .OP_xor, is_ret := false, is_ubr := false, is_cbr := false,
    is_call_direct := false, is_mbr := false, is_call := false,
    writes_memory := false, reads_memory := false,
    srcs := [.reg .RBX, .reg .RBX], dsts := [.reg .RBX], target := .imm 0,
    disassembly := "xor rbx, rbx" }

/-- A trace ring in its initial all-null state. -/
def zero_ring : List Nat := [0, 0, 0, 0, 0]

/-- The tracer state before any taint is introduced. -/
def empty_state : PropState := ⟨∅, ∅, zero_ring, 0, zero_ring, 0⟩

/-- A tracer state in which only `rax` is tainted. -/
def rax_state : PropState := ⟨{Reg.RAX}, ∅, zero_ring, 0, zero_ring, 0⟩

/-- A tracer state in which only `rbx` is tainted. -/
def rbx_state : PropState := ⟨{Reg.RBX}, ∅, zero_ring, 0, zero_ring, 0⟩

/-! ## Claims about `propagate_taint` (C7, C8, C9) -/

/-- C7, counterexample: at the boundary `pc = module_start` (with
`module_start = 100`, `module_end = 200`) the pc lies in the half-open
interval `[module_start, module_end)` but is NOT appended to the
instruction trace ring, because the code tests `pc > module_start`
strictly. -/
theorem C7_counterexample :
    (propagate_taint 100 200 100 nop_instr empty_state).last_insns = zero_ring ∧
    (propagate_taint 100 200 100 nop_instr empty_state).last_insn_idx = 0 ∧
    100 ≤ 100 ∧ 100 < 200 := by
  decide

/-- C7, amended: `propagate(pc)` appends `pc` to the instruction trace ring
if and only if `pc` lies in the OPEN interval `(module_start, module_end)`
— the boundary `pc = module_start` is excluded — and consequently the ring
only ever contains PCs strictly inside that interval plus the null default
for unwritten slots. -/
theorem C7_insn_ring (ms me pc : Nat) (instr : Instr) (st : PropState) :
    ((ms < pc ∧ pc < me) →
      (propagate_taint ms me pc instr st).last_insns =
        st.last_insns.set st.last_insn_idx pc ∧
      (propagate_taint ms me pc instr st).last_insn_idx =
        (st.last_insn_idx + 1) % LAST_COUNT) ∧
    (¬(ms < pc ∧ pc < me) →
      (propagate_taint ms me pc instr st).last_insns = st.last_insns ∧
      (propagate_taint ms me pc instr st).last_insn_idx = st.last_insn_idx) ∧
    ((∀ x ∈ st.last_insns, x = 0 ∨ (ms < x ∧ x < me)) →
      ∀ x ∈ (propagate_taint ms me pc instr st).last_insns,
        x = 0 ∨ (ms < x ∧ x < me)) := by
  have hmain :
      ((ms < pc ∧ pc < me) →
        (propagate_taint ms me pc instr st).last_insns =
          st.last_insns.set st.last_insn_idx pc ∧
        (propagate_taint ms me pc instr st).last_insn_idx =
          (st.last_insn_idx + 1) % LAST_COUNT) ∧
      (¬(ms < pc ∧ pc < me) →
        (propagate_taint ms me pc instr st).last_insns = st.last_insns ∧
        (propagate_taint ms me pc instr st).last_insn_idx = st.last_insn_idx) := by
    by_cases hpc : ms < pc ∧ pc < me <;>
      refine ⟨fun h => ?_, fun h => ?_⟩ <;> first
      | exact absurd hpc h
      | exact absurd h hpc
      | · unfold propagate_taint
          simp only [hpc, and_self, not_true_eq_false, not_false_eq_true,
            if_true, if_false, eq_self_iff_true, iff_true, decide_eq_true_eq]
          repeat' split
          all_goals simp_all
  refine ⟨hmain.1, hmain.2, fun hinv x hx => ?_⟩
  by_cases hpc : ms < pc ∧ pc < me
  · rw [(hmain.1 hpc).1] at hx
    rcases List.mem_or_eq_of_mem_set hx with h | h
    · exact hinv x h
    · exact Or.inr (h ▸ hpc)
  · rw [(hmain.2 hpc).1] at hx
    exact hinv x hx

/-- C8, counterexample: a call at `pc = 150` inside the module range
`(100, 200)` whose memory target resolves to address 500 — outside the
module range — still has 500 appended to the call ring, contradicting the
claim that the resolved target is appended exactly when the target itself
lies inside the module range (the code tests the pc, not the target). -/
theorem C8_counterexample :
    (propagate_taint 100 200 150 call_mem_instr rax_state).last_calls =
      [500, 0, 0, 0, 0] ∧
    ¬(100 ≤ 500 ∧ 500 < 200) := by
  decide

/-- C8, amended: during propagation with a non-empty taint state, when the
decoded instruction is a call whose target is a memory operand, the
resolved call-target address is appended to the call ring exactly when the
call instruction's own pc lies strictly inside `(module_start, module_end)`
— regardless of where the resolved target itself points. -/
theorem C8_call_ring (ms me pc : Nat) (instr : Instr) (st : PropState)
    (addr size : Nat) (hbd : Bool) (rb rd ri : Reg)
    (htgt : instr.target = Operand.mem addr size hbd rb rd ri)
    (hcall : instr.is_call = true)
    (hne : ¬(st.tainted_mems = ∅ ∧ st.tainted_regs = ∅)) :
    ((ms < pc ∧ pc < me) →
      (propagate_taint ms me pc instr st).last_calls =
        st.last_calls.set st.last_call_idx addr ∧
      (propagate_taint ms me pc instr st).last_call_idx =
        (st.last_call_idx + 1) % LAST_COUNT) ∧
    (¬(ms < pc ∧ pc < me) →
      (propagate_taint ms me pc instr st).last_calls = st.last_calls ∧
      (propagate_taint ms me pc instr st).last_call_idx = st.last_call_idx) := by
  by_cases hpc : ms < pc ∧ pc < me <;>
    refine ⟨fun h => ?_, fun h => ?_⟩ <;> first
    | exact absurd hpc h
    | exact absurd h hpc
    | · unfold propagate_taint
        simp only [hpc, hne, hcall, htgt, and_self, not_true_eq_false,
          not_false_eq_true, if_true, if_false, eq_self_iff_true, iff_true]
        repeat' split
        all_goals simp_all

/-- C8, witness for the amended theorem at a concrete input: a call at
pc 150 inside `(100, 200)` with memory target 500 and `rax` tainted. -/
theorem C8_call_ring_witness :
    (propagate_taint 100 200 150 call_mem_instr rax_state).last_calls =
      [500, 0, 0, 0, 0] ∧
    (propagate_taint 100 200 150 call_mem_instr rax_state).last_call_idx = 1 := by
  have h := (C8_call_ring 100 200 150 call_mem_instr rax_state 500 8 false
    .NULLREG .NULLREG .NULLREG rfl rfl (by decide)).1 (by decide)
  exact ⟨by rw [h.1]; decide, by rw [h.2]; decide⟩

/-- C7, witness for the amended theorem at a concrete input: pc 150 inside
`(100, 200)` is appended; pc 100 at the boundary is not. -/
theorem C7_insn_ring_witness :
    (propagate_taint 100 200 150 nop_instr empty_state).last_insns =
      [150, 0, 0, 0, 0] ∧
    (propagate_taint 100 200 150 nop_instr empty_state).last_insn_idx = 1 := by
  have h := (C7_insn_ring 100 200 150 nop_instr empty_state).1 (by decide)
  exact ⟨by rw [h.1]; decide, by rw [h.2]; decide⟩

/-- C9, confirmed: executing `xor R, R` whose two source operands
canonicalize to the same register removes that register from the tainted
register set, regardless of the rest of the state. -/
theorem C9_xor_self_untaints (ms me pc : Nat) (instr : Instr) (st : PropState)
    (a b : Reg)
    (hop : instr.opcode = Opcode.OP_xor)
    (h1 : instr.is_ret = false) (h2 : instr.is_ubr = false)
    (h3 : instr.is_cbr = false) (h4 : instr.is_call_direct = false)
    (h5 : instr.is_mbr = false) (h6 : instr.is_call = false)
    (hsrcs : instr.srcs = [Operand.reg a, Operand.reg b])
    (heq : reg_to_full_width64 a = reg_to_full_width64 b)
    (hmem : reg_to_full_width64 a ∈ st.tainted_regs) :
    reg_to_full_width64 a ∉ (propagate_taint ms me pc instr st).tainted_regs := by
  have hne : ¬(st.tainted_mems = ∅ ∧ st.tainted_regs = ∅) := by
    rintro ⟨-, h⟩
    exact Finset.not_mem_empty _ (h ▸ hmem)
  unfold propagate_taint
  by_cases hpc : ms < pc ∧ pc < me <;>
    simp only [hpc, hne, h6, and_self, not_true_eq_false, not_false_eq_true,
      if_true, if_false, Bool.false_eq_true, eq_self_iff_true, iff_true] <;>
    simp [handle_specific, handle_branches, handle_xor, hop, hsrcs, heq,
      h1, h2, h3, h4, h5, h6]

/-- C9, witness: with `rbx` tainted, `xor rbx, rbx` removes `rbx` from the
tainted register set. -/
theorem C9_xor_self_untaints_witness :
    Reg.RBX ∉ (propagate_taint 100 200 150 xor_rbx_instr rbx_state).tainted_regs := by
  have h := C9_xor_self_untaints 100 200 150 xor_rbx_instr rbx_state .RBX .RBX
    rfl rfl rfl rfl rfl rfl rfl rfl rfl (by decide)
  exact h

/-! ## Claims about the triage ladder and the JSON report (C1, C3, C10) -/

set_option maxHeartbeats 2000000 in
/-- C1, confirmed: for every fixed taint state, exception record and
decoded instruction, the triage ladder produces exactly the (reason, score)
pair given by the first matching row of the ordered scoring matrix of
section 4.7, with the row flags computed as in step 3; in particular the
matrix is a function of that input. -/
theorem C1_scoring_matrix_function (TR : RegSet) (TM : MemSet) (code : ExcCode)
    (bad_read_ptr : Bool) (instr : Instr) :
    ((on_exception TR TM code bad_read_ptr instr).reason,
     (on_exception TR TM code bad_read_ptr instr).score) =
    spec_scoring_matrix bad_read_ptr
      (decide (reg_to_full_width64 Reg.NULLREG ∈ TR))
      (decide (code = ExcCode.illegalInstruction))
      (decide (code = ExcCode.intDivideByZero))
      (decide (code = ExcCode.breakpoint))
      (instr.is_ubr || instr.is_cbr || instr.is_call_direct)
      instr.is_mbr instr.is_call instr.is_ret
      (decide (reg_to_full_width64 Reg.ESP ∈ TR))
      instr.writes_memory instr.reads_memory
      (instr.srcs.any (is_tainted TR TM))
      (instr.dsts.any (is_tainted TR TM)) := by
  cases bad_read_ptr <;> cases code <;>
    by_cases hpc : reg_to_full_width64 Reg.NULLREG ∈ TR <;>
    by_cases hsp : reg_to_full_width64 Reg.ESP ∈ TR <;>
    simp [on_exception, spec_scoring_matrix, hpc, hsp,
      apply_ite CrashReportArgs.reason, apply_ite CrashReportArgs.score] <;>
    split_ifs <;> simp_all

/-- A machine context in which every register reads 0. -/
def zero_ctx : Reg → Nat := fun _ => 0

/-- C3, counterexample: when the faulting address is unreadable the oob row
fires before the faulting instruction is ever decoded, so even for a ret
instruction the emitted JSON reports `is_ret = false` and an empty
`instruction` string — the step-3 values (`is_ret = true`, disassembly
"ret") are not reflected. -/
theorem C3_counterexample :
    (dump_json ∅ ∅ ExcCode.accessViolation 0 zero_ctx
        (on_exception ∅ ∅ ExcCode.accessViolation true ret_instr)
        zero_ring 0 zero_ring 0).is_ret = false ∧
    (dump_json ∅ ∅ ExcCode.accessViolation 0 zero_ctx
        (on_exception ∅ ∅ ExcCode.accessViolation true ret_instr)
        zero_ring 0 zero_ring 0).instruction = "" ∧
    ret_instr.is_ret = true ∧
    ret_instr.disassembly = "ret" := by
  refine ⟨rfl, rfl, rfl, rfl⟩

set_option maxHeartbeats 2000000 in
/-- Helper for C3: which step-3 values the ladder actually forwards, row by
row: `pc_tainted`/`stack_tainted` always; the classification and memory
flags and the disassembly only when neither an oob row nor an
illegal-instruction row fires; `tainted_src`/`tainted_dst` only when
additionally no divide-by-zero, breakpoint, branching or return row
fires. -/
theorem on_exception_flags (TR : RegSet) (TM : MemSet) (code : ExcCode)
    (bad_read_ptr : Bool) (instr : Instr) :
    (on_exception TR TM code bad_read_ptr instr).pc_tainted =
      decide (reg_to_full_width64 Reg.NULLREG ∈ TR) ∧
    (on_exception TR TM code bad_read_ptr instr).stack_tainted =
      decide (reg_to_full_width64 Reg.ESP ∈ TR) ∧
    (bad_read_ptr = false → code ≠ ExcCode.illegalInstruction →
      (on_exception TR TM code bad_read_ptr instr).disassembly = instr.disassembly ∧
      (on_exception TR TM code bad_read_ptr instr).is_ret = instr.is_ret ∧
      (on_exception TR TM code bad_read_ptr instr).is_direct =
        (instr.is_ubr || instr.is_cbr || instr.is_call_direct) ∧
      (on_exception TR TM code bad_read_ptr instr).is_indirect = instr.is_mbr ∧
      (on_exception TR TM code bad_read_ptr instr).is_call = instr.is_call ∧
      (on_exception TR TM code bad_read_ptr instr).mem_write = instr.writes_memory ∧
      (on_exception TR TM code bad_read_ptr instr).mem_read = instr.reads_memory) ∧
    (bad_read_ptr = false → code ≠ ExcCode.illegalInstruction →
      code ≠ ExcCode.intDivideByZero → code ≠ ExcCode.breakpoint →
      (instr.is_ubr || instr.is_cbr || instr.is_call_direct ||
        instr.is_mbr || instr.is_call) = false →
      instr.is_ret = false →
      (on_exception TR TM code bad_read_ptr instr).tainted_src =
        instr.srcs.any (is_tainted TR TM) ∧
      (on_exception TR TM code bad_read_ptr instr).tainted_dst =
        instr.dsts.any (is_tainted TR TM)) := by
  cases bad_read_ptr <;> cases code <;>
    by_cases hpc : reg_to_full_width64 Reg.NULLREG ∈ TR <;>
    by_cases hsp : reg_to_full_width64 Reg.ESP ∈ TR <;>
    simp [on_exception, hpc, hsp,
      apply_ite CrashReportArgs.pc_tainted, apply_ite CrashReportArgs.stack_tainted,
      apply_ite CrashReportArgs.disassembly, apply_ite CrashReportArgs.is_ret,
      apply_ite CrashReportArgs.is_direct, apply_ite CrashReportArgs.is_indirect,
      apply_ite CrashReportArgs.is_call, apply_ite CrashReportArgs.mem_write,
      apply_ite CrashReportArgs.mem_read, apply_ite CrashReportArgs.tainted_src,
      apply_ite CrashReportArgs.tainted_dst] <;>
    (try (intro h1 h2 h3 h4 h5 h6)) <;> simp_all

/-- C3, amended: the emitted JSON fields reflect the step-3 computation
only on the rows reached after the corresponding computation has happened:
`pc_tainted`/`stack_tainted` on every row; `instruction` and the
classification and memory flags on all rows except the oob rows (which fire
before decoding) and the illegal-instruction rows (which pass all-false
flags); `tainted_src`/`tainted_dst` only on the write, read and fallback
rows (the operand survey runs after the divide-by-zero, breakpoint,
branching and return rows). -/
theorem C3_report_reflects_step3 (TR : RegSet) (TM : MemSet) (code : ExcCode)
    (bad_read_ptr : Bool) (instr : Instr) (exception_address : Nat)
    (ctx : Reg → Nat) (lc : List Nat) (lci : Nat) (li : List Nat) (lii : Nat) :
    (dump_json TR TM code exception_address ctx
        (on_exception TR TM code bad_read_ptr instr) lc lci li lii).pc_tainted =
      decide (reg_to_full_width64 Reg.NULLREG ∈ TR) ∧
    (dump_json TR TM code exception_address ctx
        (on_exception TR TM code bad_read_ptr instr) lc lci li lii).stack_tainted =
      decide (reg_to_full_width64 Reg.ESP ∈ TR) ∧
    (bad_read_ptr = false → code ≠ ExcCode.illegalInstruction →
      (dump_json TR TM code exception_address ctx
          (on_exception TR TM code bad_read_ptr instr) lc lci li lii).instruction =
        instr.disassembly ∧
      (dump_json TR TM code exception_address ctx
          (on_exception TR TM code bad_read_ptr instr) lc lci li lii).is_ret =
        instr.is_ret ∧
      (dump_json TR TM code exception_address ctx
          (on_exception TR TM code bad_read_ptr instr) lc lci li lii).is_direct =
        (instr.is_ubr || instr.is_cbr || instr.is_call_direct) ∧
      (dump_json TR TM code exception_address ctx
          (on_exception TR TM code bad_read_ptr instr) lc lci li lii).is_indirect =
        instr.is_mbr ∧
      (dump_json TR TM code exception_address ctx
          (on_exception TR TM code bad_read_ptr instr) lc lci li lii).is_call =
        instr.is_call ∧
      (dump_json TR TM code exception_address ctx
          (on_exception TR TM code bad_read_ptr instr) lc lci li lii).mem_write =
        instr.writes_memory ∧
      (dump_json TR TM code exception_address ctx
          (on_exception TR TM code bad_read_ptr instr) lc lci li lii).mem_read =
        instr.reads_memory) ∧
    (bad_read_ptr = false → code ≠ ExcCode.illegalInstruction →
      code ≠ ExcCode.intDivideByZero → code ≠ ExcCode.breakpoint →
      (instr.is_ubr || instr.is_cbr || instr.is_call_direct ||
        instr.is_mbr || instr.is_call) = false →
      instr.is_ret = false →
      (dump_json TR TM code exception_address ctx
          (on_exception TR TM code bad_read_ptr instr) lc lci li lii).tainted_src =
        instr.srcs.any (is_tainted TR TM) ∧
      (dump_json TR TM code exception_address ctx
          (on_exception TR TM code bad_read_ptr instr) lc lci li lii).tainted_dst =
        instr.dsts.any (is_tainted TR TM)) := by
  simpa [dump_json] using on_exception_flags TR TM code bad_read_ptr instr

/-- C3, witness for the amended theorem at a concrete input: an access
violation with readable faulting address on an instruction with no
classification flags set. -/
theorem C3_report_reflects_step3_witness :
    (dump_json ∅ ∅ ExcCode.accessViolation 0 zero_ctx
        (on_exception ∅ ∅ ExcCode.accessViolation false nop_instr)
        zero_ring 0 zero_ring 0).pc_tainted =
      decide (reg_to_full_width64 Reg.NULLREG ∈ (∅ : RegSet)) ∧
    (dump_json ∅ ∅ ExcCode.accessViolation 0 zero_ctx
        (on_exception ∅ ∅ ExcCode.accessViolation false nop_instr)
        zero_ring 0 zero_ring 0).instruction = nop_instr.disassembly ∧
    (dump_json ∅ ∅ ExcCode.accessViolation 0 zero_ctx
        (on_exception ∅ ∅ ExcCode.accessViolation false nop_instr)
        zero_ring 0 zero_ring 0).tainted_src =
      nop_instr.srcs.any (is_tainted ∅ ∅) := by
  have h := C3_report_reflects_step3 ∅ ∅ ExcCode.accessViolation false nop_instr
    0 zero_ctx zero_ring 0 zero_ring 0
  exact ⟨h.1, (h.2.2.1 rfl (by decide)).1,
    (h.2.2.2 rfl (by decide) (by decide) (by decide) rfl rfl).1⟩

/-- The extents produced by the coalescing loop cover exactly the current
run `[start, start+size)` followed by the remaining (ascending) input. -/
lemma coalesceGo_flatMap (l : List Nat) : ∀ (start size : Nat),
    l.Pairwise (· < ·) → (∀ x ∈ l, start + size ≤ x) →
    (coalesceGo l start size).flatMap (fun p => List.range' p.1 p.2) =
      List.range' start size ++ l := by
  induction l with
  | nil => intro start size _ _; simp [coalesceGo]
  | cons curr rest ih =>
      intro start size hpw hge
      rcases List.pairwise_cons.mp hpw with ⟨hcurr, hrest⟩
      simp only [coalesceGo]
      by_cases h : start + size < curr
      · rw [if_pos h, List.flatMap_cons,
          ih curr 1 hrest (fun x hx => hcurr x hx)]
        simp
      · rw [if_neg h,
          ih start (size + 1) hrest (fun x hx => by
            have h1 := hcurr x hx
            have h2 := hge curr (List.mem_cons_self curr rest)
            omega)]
        have hcurr_eq : curr = start + size :=
          le_antisymm (not_lt.mp h) (hge curr (List.mem_cons_self curr rest))
        rw [List.range'_1_concat, hcurr_eq]
        simp

/-- The coalescing loop always emits a first extent starting at `start`. -/
lemma coalesceGo_first (l : List Nat) : ∀ (start size : Nat),
    ∃ sz tl, coalesceGo l start size = (start, sz) :: tl := by
  induction l with
  | nil => intro start size; exact ⟨size, [], rfl⟩
  | cons curr rest ih =>
      intro start size
      simp only [coalesceGo]
      by_cases h : start + size < curr
      · exact ⟨size, coalesceGo rest curr 1, by rw [if_pos h]⟩
      · rw [if_neg h]; exact ih start (size + 1)

/-- Consecutive extents produced by the coalescing loop are separated by a
gap: the next extent starts strictly beyond the previous one's end. -/
lemma coalesceGo_chain (l : List Nat) : ∀ (start size : Nat),
    l.Pairwise (· < ·) → (∀ x ∈ l, start + size ≤ x) →
    (coalesceGo l start size).Chain' (fun p q => p.1 + p.2 < q.1) := by
  induction l with
  | nil => intro start size _ _; simp [coalesceGo]
  | cons curr rest ih =>
      intro start size hpw hge
      rcases List.pairwise_cons.mp hpw with ⟨hcurr, hrest⟩
      simp only [coalesceGo]
      by_cases h : start + size < curr
      · rw [if_pos h]
        obtain ⟨sz, tl, he⟩ := coalesceGo_first rest curr 1
        have hch := ih curr 1 hrest (fun x hx => hcurr x hx)
        rw [he] at hch ⊢
        exact List.Chain'.cons h hch
      · rw [if_neg h]
        exact ih start (size + 1) hrest (fun x hx => by
          have h1 := hcurr x hx
          have h2 := hge curr (List.mem_cons_self curr rest)
          omega)

/-- Every extent produced by the coalescing loop has positive size. -/
lemma coalesceGo_pos (l : List Nat) : ∀ (start size : Nat), 0 < size →
    ∀ p ∈ coalesceGo l start size, 0 < p.2 := by
  induction l with
  | nil =>
      intro start size hs p hp
      simp only [coalesceGo, List.mem_singleton] at hp
      rw [hp]
      exact hs
  | cons curr rest ih =>
      intro start size hs p hp
      simp only [coalesceGo] at hp
      by_cases h : start + size < curr
      · rw [if_pos h] at hp
        rcases List.mem_cons.mp hp with he | hp1
        · rw [he]; exact hs
        · exact ih curr 1 one_pos p hp1
      · rw [if_neg h] at hp
        exact ih start (size + 1) (by omega) p hp

/-- Summary of the coalescing loop over an ascending list: the extents
cover exactly the input, consecutive extents leave a gap, and every extent
is nonempty. -/
lemma coalesce_spec (l : List Nat) (hpw : l.Pairwise (· < ·)) :
    ((coalesce l).flatMap (fun p => List.range' p.1 p.2) = l) ∧
    (coalesce l).Chain' (fun p q => p.1 + p.2 < q.1) ∧
    (∀ p ∈ coalesce l, 0 < p.2) := by
  cases l with
  | nil => simp [coalesce]
  | cons a rest =>
      rcases List.pairwise_cons.mp hpw with ⟨ha, hrest⟩
      refine ⟨?_, ?_, ?_⟩
      · rw [coalesce, coalesceGo_flatMap rest a 1 hrest (fun x hx => ha x hx)]
        simp
      · rw [coalesce]
        exact coalesceGo_chain rest a 1 hrest (fun x hx => ha x hx)
      · rw [coalesce]
        exact coalesceGo_pos rest a 1 one_pos

/-- C10, confirmed: the `tainted_addrs` list of the emitted JSON report is
a strict run-length coalescing of the tainted memory set in ascending
address order: the extents are disjoint (consecutive extents are separated
by at least one non-tainted address, i.e. a new extent begins exactly at a
discontiguity), every extent is nonempty, and an address is tainted iff it
is covered by some extent. -/
theorem C10_tainted_addrs_coalescing (TR : RegSet) (TM : MemSet)
    (code : ExcCode) (exception_address : Nat) (ctx : Reg → Nat)
    (args : CrashReportArgs) (lc : List Nat) (lci : Nat)
    (li : List Nat) (lii : Nat) :
    (∀ a : Nat, a ∈ TM ↔
      ∃ p ∈ (dump_json TR TM code exception_address ctx args
          lc lci li lii).tainted_addrs, p.1 ≤ a ∧ a < p.1 + p.2) ∧
    (dump_json TR TM code exception_address ctx args
        lc lci li lii).tainted_addrs.Chain' (fun p q => p.1 + p.2 < q.1) ∧
    (∀ p ∈ (dump_json TR TM code exception_address ctx args
        lc lci li lii).tainted_addrs, 0 < p.2) := by
  have hpw : (TM.sort (· ≤ ·)).Pairwise (· < ·) := TM.sort_sorted_lt
  obtain ⟨hflat, hchain, hpos⟩ := coalesce_spec _ hpw
  have htq : (dump_json TR TM code exception_address ctx args
      lc lci li lii).tainted_addrs = coalesce (TM.sort (· ≤ ·)) := rfl
  refine ⟨fun a => ?_, ?_, ?_⟩
  · rw [htq]
    constructor
    · intro ha
      have hm : a ∈ TM.sort (· ≤ ·) := (Finset.mem_sort _).mpr ha
      rw [← hflat] at hm
      rcases List.mem_flatMap.mp hm with ⟨p, hp, hmem⟩
      exact ⟨p, hp, List.mem_range'_1.mp hmem⟩
    · rintro ⟨p, hp, h1, h2⟩
      have hm : a ∈ (coalesce (TM.sort (· ≤ ·))).flatMap
          (fun p => List.range' p.1 p.2) :=
        List.mem_flatMap.mpr ⟨p, hp, List.mem_range'_1.mpr ⟨h1, h2⟩⟩
      rw [hflat] at hm
      exact (Finset.mem_sort _).mp hm
  · rw [htq]
    exact hchain
  · rw [htq]
    exact hpos

/-- A crash report argument tuple used as a fixture. -/
def sample_args : CrashReportArgs :=
  ⟨"breakpoint", 25, "int3", false, false, false, false, false, false,
   false, false, false, false⟩

/-- C10, witness at a concrete input: `TM = {10, 11, 13}`. -/
theorem C10_tainted_addrs_coalescing_witness :
    (11 ∈ ({10, 11, 13} : Finset Nat) ↔
      ∃ p ∈ (dump_json ∅ {10, 11, 13} ExcCode.breakpoint 0 zero_ctx sample_args
          zero_ring 0 zero_ring 0).tainted_addrs, p.1 ≤ 11 ∧ 11 < p.1 + p.2) ∧
    (dump_json ∅ {10, 11, 13} ExcCode.breakpoint 0 zero_ctx sample_args
        zero_ring 0 zero_ring 0).tainted_addrs.Chain'
      (fun p q => p.1 + p.2 < q.1) :=
  ⟨(C10_tainted_addrs_coalescing ∅ {10, 11, 13} ExcCode.breakpoint 0 zero_ctx
      sample_args zero_ring 0 zero_ring 0).1 11,
   (C10_tainted_addrs_coalescing ∅ {10, 11, 13} ExcCode.breakpoint 0 zero_ctx
      sample_args zero_ring 0 zero_ring 0).2.1⟩

end Tracer
